import Mathlib

/-!
Verification of the feedback submission and classification pipeline of
`src/app.py` (an AI-feedback web application), as a shallow embedding.
Strings are modelled as `List Char`; the Python string method lower is
modelled character-wise by `Char.toLower`; Python substring containment
(`kw in s`) is modelled by `List.IsInfix`; the flat JSON file is
modelled as an `Option (List FeedbackRecord)` (`none` = file absent).
-/

/-- Python whitespace characters recognised by the Python string method strip. -/
def isPySpace (c : Char) : Bool :=
  c == ' ' || c == '\t' || c == '\n' || c == '\r' || c == Char.ofNat 11 || c == Char.ofNat 12

/-- Embedding of Python the Python string method strip: drop whitespace from both ends. -/
def trimChars (l : List Char) : List Char :=
  ((l.dropWhile isPySpace).reverse.dropWhile isPySpace).reverse

/-- Character-wise lower-casing, embedding Python the Python string method lower. -/
def lowerList (t : List Char) : List Char := t.map Char.toLower

/-- Boolean substring test, embedding Python `kw in s`. -/
def hasKw (k l : List Char) : Bool := decide (k <:+: l)

/-- Wrapping prefix used by the normalizer (`app.py` line 60). -/
def wrapPre : List Char := "Customer feedback indicates: ".toList

/-- Wrapping suffix used by the normalizer (`app.py` line 60). -/
def wrapSuf : List Char := ". Additional context would be helpful.".toList

/-- The text normalizer (`app.py` lines 55-60): texts shorter than 20
characters are wrapped, all others pass through unchanged. -/
def improveText (t : List Char) : List Char :=
  if t.length < 20 then wrapPre ++ t ++ wrapSuf else t

/- Keyword lists of the classifier (`app.py` lines 65-77). -/

def slowKw : List Char := "slow".toList

def waitKw : List Char := "wait".toList

def dirtyKw : List Char := "dirty".toList

def cleanKw : List Char := "clean".toList

def rudeKw : List Char := "rude".toList

def unfriendlyKw : List Char := "unfriendly".toList

def staffKw : List Char := "staff".toList

def priceKw : List Char := "price".toList

def expensiveKw : List Char := "expensive".toList

def cheapKw : List Char := "cheap".toList

def foodKw : List Char := "food".toList

def mealKw : List Char := "meal".toList

def tasteKw : List Char := "taste".toList

def longKw : List Char := "long".toList

def boringKw : List Char := "boring".toList

def goodKw : List Char := "good".toList

def greatKw : List Char := "great".toList

def excellentKw : List Char := "excellent".toList

/- Recommendation strings, verbatim from `app.py` lines 66-80. -/

def sol1 (ctx : List Char) : List Char :=
  "Recommendation: Increase staff during peak hours. Consider implementing a queue management system. ".toList ++ ctx

def sol2 : List Char :=
  "Recommendation: Implement more frequent cleaning schedules and conduct regular hygiene inspections.".toList

def sol3 : List Char :=
  "Recommendation: Provide customer service training for staff and establish clear communication guidelines.".toList

def sol4 : List Char :=
  "Recommendation: Review pricing strategy and consider offering value packages or loyalty programs.".toList

def sol5 : List Char :=
  "Recommendation: Gather specific feedback about menu items and consider taste testing with focus groups.".toList

def sol6 : List Char :=
  "Recommendation: Break sessions into shorter segments with interactive elements and regular breaks.".toList

def sol7 : List Char :=
  "Positive feedback received! Continue maintaining these high standards and consider what".toList
    ++ [Char.ofNat 39] ++ "s working well.".toList

def sol8 (ctx : List Char) : List Char :=
  "Recommendation: Follow up with customer for more specific details. ".toList ++
    (if ctx = [] then "Consider implementing regular feedback sessions.".toList else ctx)

/-- The classifier (`app.py` lines 62-80): lower-case the text, then test
the ordered keyword groups, first match winning. -/
def classifySolution (text ctx : List Char) : List Char :=
  if hasKw slowKw (lowerList text) || hasKw waitKw (lowerList text) then sol1 ctx
  else if hasKw dirtyKw (lowerList text) || hasKw cleanKw (lowerList text) then sol2
  else if hasKw rudeKw (lowerList text) || hasKw unfriendlyKw (lowerList text)
      || hasKw staffKw (lowerList text) then sol3
  else if hasKw priceKw (lowerList text) || hasKw expensiveKw (lowerList text)
      || hasKw cheapKw (lowerList text) then sol4
  else if hasKw foodKw (lowerList text) || hasKw mealKw (lowerList text)
      || hasKw tasteKw (lowerList text) then sol5
  else if hasKw longKw (lowerList text) || hasKw boringKw (lowerList text) then sol6
  else if hasKw goodKw (lowerList text) || hasKw greatKw (lowerList text)
      || hasKw excellentKw (lowerList text) then sol7
  else sol8 ctx

/-- Embedding of `process_feedback_with_ai` (`app.py` lines 49-82): returns
the pair (improved text, solution).  The `category` argument is accepted
but, as in the source, not used. -/
def process (feedbackText category companyContext : List Char) : List Char × List Char :=
  (improveText feedbackText, classifySolution feedbackText companyContext)

/-- The stored feedback record (`app.py` lines 245-254). -/
structure FeedbackRecord where
  id : Nat
  company : List Char
  category : List Char
  rating : Nat
  original : List Char
  improved : List Char
  solution : List Char
  timestamp : List Char
deriving DecidableEq

/-- Company profile created on the setup page (`app.py` lines 171-179). -/
structure CompanyProfile where
  name : List Char
  businessType : List Char
  description : List Char
  focusAreas : List (List Char)
  categories : List (List Char)
  enableRating : Bool
  createdAt : List Char
deriving DecidableEq

/-- Application state: the in-memory feedback list, the persisted file
(`none` = absent), and the active company profile (`none` = no setup). -/
structure AppState where
  feedbacks : List FeedbackRecord
  persisted : Option (List FeedbackRecord)
  companyInfo : Option CompanyProfile
deriving DecidableEq

/-- Embedding of `load_feedbacks` (`app.py` lines 34-38): a missing file
reads as the empty collection. -/
def load_feedbacks (disk : Option (List FeedbackRecord)) : List FeedbackRecord :=
  match disk with
  | some l => l
  | none => []

/-- Embedding of `save_feedbacks` (`app.py` lines 40-42): the whole
collection overwrites the file. -/
def save_feedbacks (l : List FeedbackRecord) : Option (List FeedbackRecord) :=
  some l

/-- Whether ratings are collected (`app.py` lines 204, 208, 217-220):
`true` by default when no profile exists. -/
def ratingEnabled (st : AppState) : Bool :=
  match st.companyInfo with
  | none => true
  | some ci => ci.enableRating

/-- Company name shown on the form (`app.py` lines 202, 206). -/
def companyNameOf (st : AppState) : List Char :=
  match st.companyInfo with
  | none => "Our Company".toList
  | some ci => ci.name

/-- The company-context string passed to the classifier
(`app.py` lines 234-236): empty when no profile is active. -/
def companyContext (st : AppState) : List Char :=
  match st.companyInfo with
  | none => []
  | some ci => "Company context: ".toList ++ ci.description

/-- The record built by a submission (`app.py` lines 217-220, 238-254):
rating forced to 0 when ratings are disabled, id = current count + 1. -/
def mkEntry (st : AppState) (cat : List Char) (req : Nat) (text now : List Char) :
    FeedbackRecord :=
  { id := st.feedbacks.length + 1
    company := companyNameOf st
    category := cat
    rating := if ratingEnabled st then req else 0
    original := text
    improved := (process text cat (companyContext st)).1
    solution := (process text cat (companyContext st)).2
    timestamp := now }

/-- Outcome of a submission attempt. -/
inductive SubmitErr where
  | validation
  | persistence
deriving DecidableEq

/-- Embedding of the submit branch of `show_feedback_form`
(`app.py` lines 230-262).  `saveOk` models whether the file write of
`save_feedbacks` succeeds; as in the source, the new record is inserted
into the in-memory list *before* the save is attempted, and a failing
save raises after the insertion. -/
def submit (saveOk : Bool) (st : AppState) (cat : List Char) (req : Nat)
    (text now : List Char) : AppState × Except SubmitErr FeedbackRecord :=
  if trimChars text = [] then
    (st, Except.error SubmitErr.validation)
  else
    let entry := mkEntry st cat req text now
    let mem := entry :: st.feedbacks
    if saveOk then
      ({ st with feedbacks := mem, persisted := save_feedbacks mem }, Except.ok entry)
    else
      ({ st with feedbacks := mem }, Except.error SubmitErr.persistence)

/-- Numerator of the dashboard average (`app.py` line 320): sum of the
ratings of the records with a positive rating. -/
def ratingNumerator (fs : List FeedbackRecord) : Nat :=
  ((fs.filter fun f => decide (0 < f.rating)).map fun f => f.rating).sum

/-- Denominator of the dashboard average (`app.py` line 320):
`max 1 (number of records with a positive rating)`. -/
def ratingDenominator (fs : List FeedbackRecord) : Nat :=
  max 1 (fs.filter fun f => decide (0 < f.rating)).length

/-- The dashboard average-rating statistic (`app.py` lines 318-322). -/
def dashboardAvg (fs : List FeedbackRecord) : ℚ :=
  if 0 < fs.length then (ratingNumerator fs : ℚ) / (ratingDenominator fs : ℚ) else 0

def preLow : List Char := List.map Char.toLower wrapPre

def sufLow : List Char := List.map Char.toLower wrapSuf

/-- The keyword conditions of the classifier in source order (rule 8 is the
unconditional fallback). -/
def ruleCond : Nat → List Char → Bool
  | 0, l => hasKw slowKw l || hasKw waitKw l
  | 1, l => hasKw dirtyKw l || hasKw cleanKw l
  | 2, l => hasKw rudeKw l || hasKw unfriendlyKw l || hasKw staffKw l
  | 3, l => hasKw priceKw l || hasKw expensiveKw l || hasKw cheapKw l
  | 4, l => hasKw foodKw l || hasKw mealKw l || hasKw tasteKw l
  | 5, l => hasKw longKw l || hasKw boringKw l
  | 6, l => hasKw goodKw l || hasKw greatKw l || hasKw excellentKw l
  | _, _ => true

/-- The recommendations of the classifier in source order. -/
def ruleSol : Nat → List Char → List Char
  | 0, ctx => sol1 ctx
  | 1, _ => sol2
  | 2, _ => sol3
  | 3, _ => sol4
  | 4, _ => sol5
  | 5, _ => sol6
  | 6, _ => sol7
  | _, ctx => sol8 ctx

def ts0 : List Char := "2024-01-01 10:00:00".toList

def stNone : AppState := { feedbacks := [], persisted := none, companyInfo := none }

def st0 : AppState := { feedbacks := [], persisted := some [], companyInfo := none }

def profNoRating : CompanyProfile :=
  { name := "Acme".toList
    businessType := "Retail Store".toList
    description := "A small shop".toList
    focusAreas := []
    categories := ["General".toList]
    enableRating := false
    createdAt := ts0 }

def stDisabled : AppState :=
  { feedbacks := [], persisted := none, companyInfo := some profNoRating }

def rec0 : FeedbackRecord :=
  { id := 1
    company := "Our Company".toList
    category := "General".toList
    rating := 0
    original := "slow".toList
    improved := wrapPre ++ "slow".toList ++ wrapSuf
    solution := sol1 []
    timestamp := ts0 }

lemma kwSplitHead {α : Type} (k a b : List α) (c : α) (hb : b.head? = some c)
    (hc : c ∉ k) : k <:+: a ++ b ↔ k <:+: a ∨ k <:+: b := by
  constructor
  · rintro ⟨s, t, h⟩
    rw [List.append_assoc] at h
    rcases List.append_eq_append_iff.mp h with ⟨m, hm1, hm2⟩ | ⟨m, _, hm2⟩
    · rcases List.append_eq_append_iff.mp hm2 with ⟨n, hn1, _⟩ | ⟨n, hn1, hn2⟩
      · left
        exact ⟨s, n, by rw [hm1, hn1, List.append_assoc]⟩
      · cases n with
        | nil =>
          left
          have hk : k = m := by simpa using hn1
          exact ⟨s, [], by simp [hm1, hk]⟩
        | cons x n' =>
          exfalso
          apply hc
          have hx : x = c := by
            rw [hn2] at hb
            simpa using hb
          rw [hn1, hx]
          simp
    · right
      exact ⟨m, t, by rw [hm2, List.append_assoc]⟩
  · rintro (⟨s, t, h⟩ | ⟨s, t, h⟩)
    · exact ⟨s, t ++ b, by rw [← h]; simp [List.append_assoc]⟩
    · exact ⟨a ++ s, t, by rw [← h]; simp [List.append_assoc]⟩

lemma kwSplitLast {α : Type} (k a b : List α) (c : α) (ha : a.getLast? = some c)
    (hc : c ∉ k) : k <:+: a ++ b ↔ k <:+: a ∨ k <:+: b := by
  have hrev : a.reverse.head? = some c := by
    rw [List.head?_reverse]; exact ha
  have hmem : c ∉ k.reverse := by simpa using hc
  constructor
  · intro h
    have h' : k.reverse <:+: b.reverse ++ a.reverse := by
      rw [← List.reverse_append]
      exact List.reverse_infix.mpr h
    rcases (kwSplitHead k.reverse b.reverse a.reverse c hrev hmem).mp h' with h1 | h1
    · right; exact List.reverse_infix.mp h1
    · left; exact List.reverse_infix.mp h1
  · rintro (h | h)
    · have h' : k.reverse <:+: b.reverse ++ a.reverse :=
        (kwSplitHead k.reverse b.reverse a.reverse c hrev hmem).mpr
          (Or.inr ( List.reverse_infix.mpr h))
      rw [← List.reverse_append] at h'
      exact List.reverse_infix.mp h'
    · have h' : k.reverse <:+: b.reverse ++ a.reverse :=
        (kwSplitHead k.reverse b.reverse a.reverse c hrev hmem).mpr
          (Or.inl ( List.reverse_infix.mpr h))
      rw [← List.reverse_append] at h'
      exact List.reverse_infix.mp h'

lemma kwBridge (k lt : List Char) (h1 : (' ' : Char) ∉ k) (h2 : ('.' : Char) ∉ k)
    (hp : ¬ k <:+: preLow) (hs : ¬ k <:+: sufLow) :
    k <:+: preLow ++ lt ++ sufLow ↔ k <:+: lt := by
  rw [List.append_assoc]
  rw [kwSplitLast k preLow (lt ++ sufLow) ' ' (by decide) h1]
  rw [kwSplitHead k lt sufLow '.' (by decide) h2]
  tauto

lemma preLow_eq : List.map Char.toLower wrapPre = preLow := rfl

lemma sufLow_eq : List.map Char.toLower wrapSuf = sufLow := rfl

lemma bridgeSlow (lt : List Char) :
    hasKw slowKw (preLow ++ lt ++ sufLow) = hasKw slowKw lt := by
  unfold hasKw
  exact decide_eq_decide.mpr (kwBridge _ _ (by decide) (by decide) (by decide) (by decide))

lemma bridgeWait (lt : List Char) :
    hasKw waitKw (preLow ++ lt ++ sufLow) = hasKw waitKw lt := by
  unfold hasKw
  exact decide_eq_decide.mpr (kwBridge _ _ (by decide) (by decide) (by decide) (by decide))

lemma bridgeDirty (lt : List Char) :
    hasKw dirtyKw (preLow ++ lt ++ sufLow) = hasKw dirtyKw lt := by
  unfold hasKw
  exact decide_eq_decide.mpr (kwBridge _ _ (by decide) (by decide) (by decide) (by decide))

lemma bridgeClean (lt : List Char) :
    hasKw cleanKw (preLow ++ lt ++ sufLow) = hasKw cleanKw lt := by
  unfold hasKw
  exact decide_eq_decide.mpr (kwBridge _ _ (by decide) (by decide) (by decide) (by decide))

lemma bridgeRude (lt : List Char) :
    hasKw rudeKw (preLow ++ lt ++ sufLow) = hasKw rudeKw lt := by
  unfold hasKw
  exact decide_eq_decide.mpr (kwBridge _ _ (by decide) (by decide) (by decide) (by decide))

lemma bridgeUnfriendly (lt : List Char) :
    hasKw unfriendlyKw (preLow ++ lt ++ sufLow) = hasKw unfriendlyKw lt := by
  unfold hasKw
  exact decide_eq_decide.mpr (kwBridge _ _ (by decide) (by decide) (by decide) (by decide))

lemma bridgeStaff (lt : List Char) :
    hasKw staffKw (preLow ++ lt ++ sufLow) = hasKw staffKw lt := by
  unfold hasKw
  exact decide_eq_decide.mpr (kwBridge _ _ (by decide) (by decide) (by decide) (by decide))

lemma bridgePrice (lt : List Char) :
    hasKw priceKw (preLow ++ lt ++ sufLow) = hasKw priceKw lt := by
  unfold hasKw
  exact decide_eq_decide.mpr (kwBridge _ _ (by decide) (by decide) (by decide) (by decide))

lemma bridgeExpensive (lt : List Char) :
    hasKw expensiveKw (preLow ++ lt ++ sufLow) = hasKw expensiveKw lt := by
  unfold hasKw
  exact decide_eq_decide.mpr (kwBridge _ _ (by decide) (by decide) (by decide) (by decide))

lemma bridgeCheap (lt : List Char) :
    hasKw cheapKw (preLow ++ lt ++ sufLow) = hasKw cheapKw lt := by
  unfold hasKw
  exact decide_eq_decide.mpr (kwBridge _ _ (by decide) (by decide) (by decide) (by decide))

lemma bridgeFood (lt : List Char) :
    hasKw foodKw (preLow ++ lt ++ sufLow) = hasKw foodKw lt := by
  unfold hasKw
  exact decide_eq_decide.mpr (kwBridge _ _ (by decide) (by decide) (by decide) (by decide))

lemma bridgeMeal (lt : List Char) :
    hasKw mealKw (preLow ++ lt ++ sufLow) = hasKw mealKw lt := by
  unfold hasKw
  exact decide_eq_decide.mpr (kwBridge _ _ (by decide) (by decide) (by decide) (by decide))

lemma bridgeTaste (lt : List Char) :
    hasKw tasteKw (preLow ++ lt ++ sufLow) = hasKw tasteKw lt := by
  unfold hasKw
  exact decide_eq_decide.mpr (kwBridge _ _ (by decide) (by decide) (by decide) (by decide))

lemma bridgeLong (lt : List Char) :
    hasKw longKw (preLow ++ lt ++ sufLow) = hasKw longKw lt := by
  unfold hasKw
  exact decide_eq_decide.mpr (kwBridge _ _ (by decide) (by decide) (by decide) (by decide))

lemma bridgeBoring (lt : List Char) :
    hasKw boringKw (preLow ++ lt ++ sufLow) = hasKw boringKw lt := by
  unfold hasKw
  exact decide_eq_decide.mpr (kwBridge _ _ (by decide) (by decide) (by decide) (by decide))

lemma bridgeGood (lt : List Char) :
    hasKw goodKw (preLow ++ lt ++ sufLow) = hasKw goodKw lt := by
  unfold hasKw
  exact decide_eq_decide.mpr (kwBridge _ _ (by decide) (by decide) (by decide) (by decide))

lemma bridgeGreat (lt : List Char) :
    hasKw greatKw (preLow ++ lt ++ sufLow) = hasKw greatKw lt := by
  unfold hasKw
  exact decide_eq_decide.mpr (kwBridge _ _ (by decide) (by decide) (by decide) (by decide))

lemma bridgeExcellent (lt : List Char) :
    hasKw excellentKw (preLow ++ lt ++ sufLow) = hasKw excellentKw lt := by
  unfold hasKw
  exact decide_eq_decide.mpr (kwBridge _ _ (by decide) (by decide) (by decide) (by decide))

lemma classifyWrapped (t ctx : List Char) :
    classifySolution (wrapPre ++ t ++ wrapSuf) ctx = classifySolution t ctx := by
  unfold classifySolution lowerList
  simp only [List.map_append, preLow_eq, sufLow_eq, bridgeSlow, bridgeWait, bridgeDirty, bridgeClean, bridgeRude, bridgeUnfriendly, bridgeStaff, bridgePrice, bridgeExpensive, bridgeCheap, bridgeFood, bridgeMeal, bridgeTaste, bridgeLong, bridgeBoring, bridgeGood, bridgeGreat, bridgeExcellent]

/-- Claim C1: for non-empty trimmed text, the normalizer passes the text through
unchanged iff its (trimmed) length is at least 20; below 20 it returns the
wrapping template with the text embedded verbatim. -/
theorem normalizer_threshold (t : List Char) (hne : t ≠ []) (htr : trimChars t = t) :
    (improveText t = t ↔ 20 ≤ (trimChars t).length) ∧
      ((trimChars t).length < 20 → improveText t = wrapPre ++ t ++ wrapSuf) := by
  rw [htr]
  have hp : wrapPre.length = 29 := by decide
  have hs : wrapSuf.length = 38 := by decide
  constructor
  · constructor
    · intro h
      by_contra hlt
      push_neg at hlt
      rw [improveText, if_pos hlt] at h
      have hlen := congrArg List.length h
      rw [List.length_append, List.length_append, hp, hs] at hlen
      omega
    · intro h
      simp [improveText, Nat.not_lt.mpr h]
  · intro h
    simp [improveText, h]

theorem normalizer_threshold_witness :
    (improveText ("The service was very fast today".toList) = "The service was very fast today".toList) ∧
      (improveText ("slow".toList) = wrapPre ++ "slow".toList ++ wrapSuf) :=
  ⟨(normalizer_threshold _ (by decide) (by decide)).1.mpr (by decide),
   (normalizer_threshold _ (by decide) (by decide)).2 (by decide)⟩

/-- Claim C2 as written is false: after a failed save the in-memory store is not
unchanged — the record was inserted before the save was attempted. -/
theorem failed_save_counterexample :
    (submit false st0 ("General".toList) 3 ("slow".toList) ts0).1.feedbacks.length = 1 ∧
      st0.feedbacks.length = 0 ∧
      (submit false st0 ("General".toList) 3 ("slow".toList) ts0).2 =
        Except.error SubmitErr.persistence :=
  ⟨by decide, by decide, by rfl⟩

/-- Claim C2, amended: a failed save aborts the submission with the failure
reported and leaves the persisted file unchanged, but the in-memory store
already holds the new record, inserted before the save was attempted, so a
retry would compute its id from the grown list. -/
theorem failed_save_reported (st : AppState) (cat : List Char) (req : Nat)
    (text now : List Char) (h : trimChars text ≠ []) :
    (submit false st cat req text now).2 = Except.error SubmitErr.persistence ∧
      (submit false st cat req text now).1.persisted = st.persisted ∧
      (submit false st cat req text now).1.feedbacks =
        mkEntry st cat req text now :: st.feedbacks := by
  simp [submit, h]

theorem failed_save_reported_witness :
    (submit false st0 ("General".toList) 3 ("slow today".toList) ts0).2 =
        Except.error SubmitErr.persistence ∧
      (submit false st0 ("General".toList) 3 ("slow today".toList) ts0).1.persisted =
        st0.persisted ∧
      (submit false st0 ("General".toList) 3 ("slow today".toList) ts0).1.feedbacks =
        mkEntry st0 ("General".toList) 3 ("slow today".toList) ts0 :: st0.feedbacks :=
  failed_save_reported st0 ("General".toList) 3 ("slow today".toList) ts0 (by decide)

/-- Claim C3: the stored solution equals the Classifier applied to the improved
(normalized) text together with the company-context string, which is empty
when no profile is active. -/
theorem solution_classifies_improved (st : AppState) (cat : List Char) (req : Nat)
    (text now : List Char) :
    (mkEntry st cat req text now).solution =
        classifySolution (mkEntry st cat req text now).improved (companyContext st) ∧
      (st.companyInfo = none → companyContext st = []) := by
  constructor
  · show (process text cat (companyContext st)).2 =
      classifySolution (process text cat (companyContext st)).1 (companyContext st)
    unfold process
    by_cases h : text.length < 20
    · simp only [improveText, if_pos h]
      exact (classifyWrapped text (companyContext st)).symm
    · simp only [improveText, if_neg h]
  · intro h
    simp [companyContext, h]

theorem solution_classifies_improved_witness :
    ((mkEntry stNone ("General".toList) 3 ("slow".toList) ts0).solution =
        classifySolution (mkEntry stNone ("General".toList) 3 ("slow".toList) ts0).improved
          (companyContext stNone)) ∧
      companyContext stNone = [] :=
  ⟨(solution_classifies_improved stNone _ 3 _ ts0).1,
   (solution_classifies_improved stNone ("General".toList) 3 ("slow".toList) ts0).2 rfl⟩

/-- Claim C4: a raw text that is empty or whitespace-only after trimming is
rejected with a validation error and the state (in-memory and persisted)
is unchanged. -/
theorem empty_text_rejected (saveOk : Bool) (st : AppState) (cat : List Char) (req : Nat)
    (text now : List Char) (h : trimChars text = []) :
    submit saveOk st cat req text now = (st, Except.error SubmitErr.validation) := by
  simp [submit, h]

theorem empty_text_rejected_witness :
    submit true stNone ("General".toList) 3 [] ts0 = (stNone, Except.error SubmitErr.validation) :=
  empty_text_rejected true stNone ("General".toList) 3 [] ts0 (by decide)

/-- Claim C5: the keyword groups are tested in the listed order with first match
winning: a text containing both "slow" and "clean" gets the rule-1
staffing/queue recommendation, and in general the earliest rule whose
condition holds determines the result. -/
theorem classifier_order (t ctx : List Char) :
    (hasKw slowKw (lowerList t) = true → hasKw cleanKw (lowerList t) = true →
        classifySolution t ctx = sol1 ctx) ∧
      (∀ i : Nat, i < 8 → ruleCond i (lowerList t) = true →
        (∀ j : Nat, j < i → ruleCond j (lowerList t) = false) →
        classifySolution t ctx = ruleSol i ctx) := by
  constructor
  · intro h1 _
    simp [classifySolution, h1]
  · intro i hi hc hprev
    interval_cases i
    · simp only [ruleCond] at hc
      simp [classifySolution, ruleSol, hc]
    · have h0 := hprev 0 (by omega)
      simp only [ruleCond] at hc h0
      simp only [Bool.or_eq_false_iff] at h0
      simp [classifySolution, ruleSol, hc, h0.1, h0.2]
    · have h0 := hprev 0 (by omega)
      have h1 := hprev 1 (by omega)
      simp only [ruleCond] at hc h0 h1
      simp only [Bool.or_eq_false_iff] at h0 h1
      simp [classifySolution, ruleSol, hc, h0.1, h0.2, h1.1, h1.2]
    · have h0 := hprev 0 (by omega)
      have h1 := hprev 1 (by omega)
      have h2 := hprev 2 (by omega)
      simp only [ruleCond] at hc h0 h1 h2
      simp only [Bool.or_eq_false_iff] at h0 h1 h2
      simp [classifySolution, ruleSol, hc, h0.1, h0.2, h1.1, h1.2, h2.1.1, h2.1.2, h2.2]
    · have h0 := hprev 0 (by omega)
      have h1 := hprev 1 (by omega)
      have h2 := hprev 2 (by omega)
      have h3 := hprev 3 (by omega)
      simp only [ruleCond] at hc h0 h1 h2 h3
      simp only [Bool.or_eq_false_iff] at h0 h1 h2 h3
      simp [classifySolution, ruleSol, hc, h0.1, h0.2, h1.1, h1.2, h2.1.1, h2.1.2, h2.2,
        h3.1.1, h3.1.2, h3.2]
    · have h0 := hprev 0 (by omega)
      have h1 := hprev 1 (by omega)
      have h2 := hprev 2 (by omega)
      have h3 := hprev 3 (by omega)
      have h4 := hprev 4 (by omega)
      simp only [ruleCond] at hc h0 h1 h2 h3 h4
      simp only [Bool.or_eq_false_iff] at h0 h1 h2 h3 h4
      simp [classifySolution, ruleSol, hc, h0.1, h0.2, h1.1, h1.2, h2.1.1, h2.1.2, h2.2,
        h3.1.1, h3.1.2, h3.2, h4.1.1, h4.1.2, h4.2]
    · have h0 := hprev 0 (by omega)
      have h1 := hprev 1 (by omega)
      have h2 := hprev 2 (by omega)
      have h3 := hprev 3 (by omega)
      have h4 := hprev 4 (by omega)
      have h5 := hprev 5 (by omega)
      simp only [ruleCond] at hc h0 h1 h2 h3 h4 h5
      simp only [Bool.or_eq_false_iff] at h0 h1 h2 h3 h4 h5
      simp [classifySolution, ruleSol, hc, h0.1, h0.2, h1.1, h1.2, h2.1.1, h2.1.2, h2.2,
        h3.1.1, h3.1.2, h3.2, h4.1.1, h4.1.2, h4.2, h5.1, h5.2]
    · have h0 := hprev 0 (by omega)
      have h1 := hprev 1 (by omega)
      have h2 := hprev 2 (by omega)
      have h3 := hprev 3 (by omega)
      have h4 := hprev 4 (by omega)
      have h5 := hprev 5 (by omega)
      have h6 := hprev 6 (by omega)
      simp only [ruleCond] at h0 h1 h2 h3 h4 h5 h6
      simp only [Bool.or_eq_false_iff] at h0 h1 h2 h3 h4 h5 h6
      simp [classifySolution, ruleSol, h0.1, h0.2, h1.1, h1.2, h2.1.1, h2.1.2, h2.2,
        h3.1.1, h3.1.2, h3.2, h4.1.1, h4.1.2, h4.2, h5.1, h5.2, h6.1.1, h6.1.2, h6.2]

theorem classifier_order_witness :
    classifySolution ("the line was slow and not clean".toList) [] = sol1 [] ∧
      classifySolution ("the line was slow and not clean".toList) [] = ruleSol 0 [] :=
  ⟨(classifier_order ("the line was slow and not clean".toList) []).1 (by decide) (by decide),
   (classifier_order ("the line was slow and not clean".toList) []).2 0 (by omega) (by decide)
     (fun j hj => absurd hj (by omega))⟩

/-- Claim C6: from an empty store, three successful submissions get ids 1, 2, 3
(each the current store count plus one) and the persisted collection loads
newest-first with ids [3, 2, 1]. -/
theorem sequential_ids (p : Option CompanyProfile) (d : Option (List FeedbackRecord))
    (t1 t2 t3 c1 c2 c3 : List Char) (r1 r2 r3 : Nat) (n1 n2 n3 : List Char)
    (h1 : trimChars t1 ≠ []) (h2 : trimChars t2 ≠ []) (h3 : trimChars t3 ≠ []) :
    let s0 : AppState := { feedbacks := [], persisted := d, companyInfo := p }
    let o1 := submit true s0 c1 r1 t1 n1
    let o2 := submit true o1.1 c2 r2 t2 n2
    let o3 := submit true o2.1 c3 r3 t3 n3
    o1.2 = Except.ok (mkEntry s0 c1 r1 t1 n1) ∧
      o2.2 = Except.ok (mkEntry o1.1 c2 r2 t2 n2) ∧
      o3.2 = Except.ok (mkEntry o2.1 c3 r3 t3 n3) ∧
      (mkEntry s0 c1 r1 t1 n1).id = s0.feedbacks.length + 1 ∧
      (mkEntry o1.1 c2 r2 t2 n2).id = o1.1.feedbacks.length + 1 ∧
      (mkEntry o2.1 c3 r3 t3 n3).id = o2.1.feedbacks.length + 1 ∧
      (mkEntry s0 c1 r1 t1 n1).id = 1 ∧
      (mkEntry o1.1 c2 r2 t2 n2).id = 2 ∧
      (mkEntry o2.1 c3 r3 t3 n3).id = 3 ∧
      (load_feedbacks o3.1.persisted).map (fun f => f.id) = [3, 2, 1] := by
  simp [submit, mkEntry, h1, h2, h3, load_feedbacks, save_feedbacks]

theorem sequential_ids_witness :
    let s0 : AppState := { feedbacks := [], persisted := none, companyInfo := none }
    let o1 := submit true s0 ("General".toList) 3 ("slow service".toList) ts0
    let o2 := submit true o1.1 ("Service".toList) 4 ("very clean room".toList) ts0
    let o3 := submit true o2.1 ("Quality".toList) 5 ("great food".toList) ts0
    o1.2 = Except.ok (mkEntry s0 ("General".toList) 3 ("slow service".toList) ts0) ∧
      o2.2 = Except.ok (mkEntry o1.1 ("Service".toList) 4 ("very clean room".toList) ts0) ∧
      o3.2 = Except.ok (mkEntry o2.1 ("Quality".toList) 5 ("great food".toList) ts0) ∧
      (mkEntry s0 ("General".toList) 3 ("slow service".toList) ts0).id =
        s0.feedbacks.length + 1 ∧
      (mkEntry o1.1 ("Service".toList) 4 ("very clean room".toList) ts0).id =
        o1.1.feedbacks.length + 1 ∧
      (mkEntry o2.1 ("Quality".toList) 5 ("great food".toList) ts0).id =
        o2.1.feedbacks.length + 1 ∧
      (mkEntry s0 ("General".toList) 3 ("slow service".toList) ts0).id = 1 ∧
      (mkEntry o1.1 ("Service".toList) 4 ("very clean room".toList) ts0).id = 2 ∧
      (mkEntry o2.1 ("Quality".toList) 5 ("great food".toList) ts0).id = 3 ∧
      (load_feedbacks o3.1.persisted).map (fun f => f.id) = [3, 2, 1] :=
  sequential_ids none none ("slow service".toList) ("very clean room".toList)
    ("great food".toList) ("General".toList) ("Service".toList) ("Quality".toList)
    3 4 5 ts0 ts0 ts0 (by decide) (by decide) (by decide)

/-- Claim C7: with ratings disabled the created rating field of the created record is 0 regardless
of the requested rating; with ratings enabled a requested rating in 1-5 is
stored as is, so under the form constraint every stored rating is at
most 5 (and ratings are naturals, hence in [0,5]). -/
theorem rating_validation (st : AppState) (cat : List Char) (req : Nat) (text now : List Char) :
    (ratingEnabled st = false → (mkEntry st cat req text now).rating = 0) ∧
      (ratingEnabled st = true → 1 ≤ req → req ≤ 5 →
        1 ≤ (mkEntry st cat req text now).rating ∧ (mkEntry st cat req text now).rating ≤ 5) ∧
      ((ratingEnabled st = true → 1 ≤ req ∧ req ≤ 5) →
        (mkEntry st cat req text now).rating ≤ 5) := by
  refine ⟨?_, ?_, ?_⟩
  · intro h
    simp [mkEntry, h]
  · intro h h1 h5
    simp only [mkEntry, h, if_true]
    exact ⟨h1, h5⟩
  · intro h
    cases he : ratingEnabled st with
    | false => simp [mkEntry, he]
    | true =>
      have := h he
      simp only [mkEntry, he, if_true]
      exact this.2

theorem rating_validation_witness :
    (mkEntry stDisabled ("General".toList) 5 ("slow".toList) ts0).rating = 0 ∧
      (1 ≤ (mkEntry stNone ("General".toList) 4 ("slow".toList) ts0).rating ∧
        (mkEntry stNone ("General".toList) 4 ("slow".toList) ts0).rating ≤ 5) ∧
      (mkEntry stNone ("General".toList) 4 ("slow".toList) ts0).rating ≤ 5 :=
  ⟨(rating_validation stDisabled ("General".toList) 5 ("slow".toList) ts0).1 rfl,
   (rating_validation stNone ("General".toList) 4 ("slow".toList) ts0).2.1 rfl (by omega) (by omega),
   (rating_validation stNone ("General".toList) 4 ("slow".toList) ts0).2.2 (fun _ => by omega)⟩

/-- Claim C8: persisting a freshly loaded collection produces the same document:
`save (load d)` returns exactly the loaded records, in order. -/
theorem save_load_roundtrip :
    (∀ l : List FeedbackRecord, save_feedbacks (load_feedbacks (some l)) = some l) ∧
      (∀ d : Option (List FeedbackRecord),
        load_feedbacks (save_feedbacks (load_feedbacks d)) = load_feedbacks d) :=
  ⟨fun _ => rfl, fun _ => rfl⟩

/-- Claim C9: the dashboard average is total: its denominator is never zero, and
a record with rating 0 changes neither the numerator, nor the denominator,
nor the resulting average. -/
theorem dashboard_avg_total (fs : List FeedbackRecord) (r : FeedbackRecord) :
    ratingDenominator fs ≠ 0 ∧
      (r.rating = 0 →
        ratingNumerator (r :: fs) = ratingNumerator fs ∧
          ratingDenominator (r :: fs) = ratingDenominator fs ∧
          dashboardAvg (r :: fs) = dashboardAvg fs) := by
  constructor
  · have h := Nat.le_max_left 1 (fs.filter fun f => decide (0 < f.rating)).length
    unfold ratingDenominator
    omega
  · intro h
    have hfilter : (r :: fs).filter (fun f => decide (0 < f.rating)) =
        fs.filter (fun f => decide (0 < f.rating)) := by
      simp [List.filter_cons, h]
    refine ⟨?_, ?_, ?_⟩
    · unfold ratingNumerator
      rw [hfilter]
    · unfold ratingDenominator
      rw [hfilter]
    · unfold dashboardAvg
      cases fs with
      | nil =>
        simp [ratingNumerator, ratingDenominator, hfilter, List.filter_cons, h]
      | cons f fs' =>
        have hn : ratingNumerator (r :: f :: fs') = ratingNumerator (f :: fs') := by
          unfold ratingNumerator; rw [hfilter]
        have hd : ratingDenominator (r :: f :: fs') = ratingDenominator (f :: fs') := by
          unfold ratingDenominator; rw [hfilter]
        simp [hn, hd]

theorem dashboard_avg_total_witness :
    ratingDenominator [] ≠ 0 ∧
      (ratingNumerator [rec0] = ratingNumerator [] ∧
        ratingDenominator [rec0] = ratingDenominator [] ∧
        dashboardAvg [rec0] = dashboardAvg []) :=
  ⟨(dashboard_avg_total [] rec0).1, (dashboard_avg_total [] rec0).2 rfl⟩

/-- Claim C10: the classification step does not depend on the submitted category:
same text and context give the same (improved, solution) pair for any two
categories. -/
theorem category_noninterference (t ca cb ctx : List Char) :
    process t ca ctx = process t cb ctx := rfl
